import Mathlib

/-!
# Verification of the cronitor provider's reconciliation core

A shallow embedding, in Lean 4, of the state-reconciliation core of the
terraform-provider-cronitor repository:

* the order-insensitive slice normalizer `fixSliceOrder`
  (internal/provider/types.go, pointer-based version);
* the declared/observed model mappers `httpToMonitorRequest`,
  `heartbeatToMonitorRequest`, `toHttpMonitor`, `toHeartbeatMonitor`
  (internal/provider/types.go, the version with `types.Map` headers and a
  `group` attribute);
* the typed HTTP client for monitors and notification lists
  (pkg/cronitor client files), with the transport modelled as an oracle
  from requests to responses and every issued request recorded in a trace.

Go conventions used throughout the embedding:

* a Go slice is `Option (List α)` where `Option.none` is the nil slice and
  `Option.some l` a non-nil slice with elements `l`; `len` of nil is `0`.
  Where the source code never distinguishes nil from empty (the wire
  `Monitor` fields, whose only observations are `len(...) == 0` and
  iteration), a plain `List` is used instead;
* terraform framework values (`types.String`, `types.Bool`, `types.Int32`,
  `types.List`, `types.Map`) are `Option _` with `Option.none` for the
  null value; the framework getters `ValueString`/`ValueBool`/`ValueInt32`
  return the zero value on null, i.e. `Option.getD` with `""`/`false`/`0`;
* pointer fields of the wire structs (`*int`, `*string`) are `Option _`;
* in-place mutation through a pointer argument is modelled by returning
  the final value of the pointed-to object alongside the function result.
-/

namespace Cronitor

/-! ## Go slices -/

/-- `len` of a Go slice: a nil slice has length 0. -/
def sliceLen {α : Type} : Option (List α) → Nat
  | Option.none => 0
  | Option.some l => l.length

@[simp] theorem sliceLen_none {α : Type} : sliceLen (Option.none : Option (List α)) = 0 := rfl

@[simp] theorem sliceLen_some {α : Type} (l : List α) : sliceLen (Option.some l) = l.length := rfl

/-! ## The reorder normalizer

Embeds `fixSliceOrder[T comparable](correct []T, incorrect *[]T)` from
internal/provider/types.go (the pointer-based version).  The `incorrect`
pointer itself is non-nil at every call site (callers pass `&monitor.Field`),
so the initial `if incorrect == nil` guard of the source, which would
dereference the nil pointer it just tested, is never taken and is not
modelled.  The function mutates `*incorrect`; the embedding returns the
final value of `*incorrect`.  `slices.Contains` is a membership test. -/

def fixSliceOrder {T : Type} [DecidableEq T]
    (correct incorrect : Option (List T)) : Option (List T) :=
  if sliceLen correct ≠ sliceLen incorrect then
    incorrect
  else if correct = Option.none then
    Option.none
  else if (incorrect.getD []).all (fun i => decide (i ∈ correct.getD [])) then
    Option.some (correct.getD [])
  else
    incorrect

/-! ## Claims C1 and C2 -/

/-- C1: for equal-length sequences `declared` and `observed` over an
equality-comparable element type that contain the same set of unique
elements, `fixSliceOrder` with `declared` as the reference order rewrites
`observed` to be exactly `declared`, element for element and in order. -/
theorem c1_reorder_idempotent_normalization {T : Type} [DecidableEq T]
    (declared observed : List T)
    (hlen : declared.length = observed.length)
    (hsub : ∀ x ∈ observed, x ∈ declared)
    (hsup : ∀ x ∈ declared, x ∈ observed) :
    fixSliceOrder (Option.some declared) (Option.some observed) = Option.some declared := by
  unfold fixSliceOrder
  rw [if_neg (by simp [hlen]), if_neg (by simp), if_pos]
  · simp
  · simp only [Option.getD_some, List.all_eq_true, decide_eq_true_eq]
    exact hsub

/-- Witness for C1 at a concrete input: `declared = [1, 2]`,
`observed = [2, 1]`. -/
theorem c1_witness :
    (([1, 2] : List Nat).length = ([2, 1] : List Nat).length) ∧
    (∀ x ∈ ([2, 1] : List Nat), x ∈ ([1, 2] : List Nat)) ∧
    (∀ x ∈ ([1, 2] : List Nat), x ∈ ([2, 1] : List Nat)) ∧
    fixSliceOrder (Option.some [1, 2]) (Option.some [2, 1]) = Option.some [1, 2] :=
  ⟨by decide, by decide, by decide,
    c1_reorder_idempotent_normalization [1, 2] [2, 1] (by decide) (by decide) (by decide)⟩

/-- Counterexample to C2 as stated: with `declared` the nil marker and
`observed` a present-but-empty sequence, `fixSliceOrder` does not return
`observed` unchanged — it replaces the non-nil `observed` with nil. -/
theorem c2_counterexample :
    fixSliceOrder (Option.none : Option (List Nat)) (Option.some []) = Option.none ∧
    (Option.none : Option (List Nat)) ≠ Option.some [] := by
  constructor
  · rfl
  · decide

/-- C2 amended: when either sequence is the nil marker, `fixSliceOrder`
returns `observed` unchanged only if the lengths differ.  When the lengths
agree (both sides empty-or-nil), the result takes `declared`'s
representation: nil when `declared` is nil — so a present-but-empty
`observed` is collapsed to nil — and a fresh present empty sequence when
`declared` is present — so a nil `observed` is replaced by an empty
sequence. -/
theorem c2_amended_absent_marker {T : Type} [DecidableEq T]
    (correct observed : Option (List T))
    (h : correct = Option.none ∨ observed = Option.none) :
    fixSliceOrder correct observed =
      if sliceLen correct = sliceLen observed then
        (if correct = Option.none then Option.none else Option.some [])
      else observed := by
  unfold fixSliceOrder
  rcases h with h | h
  · subst h
    by_cases hlen : sliceLen (Option.none : Option (List T)) = sliceLen observed
    · simp [hlen]
    · simp [hlen]
  · subst h
    cases correct with
    | none => simp
    | some cl =>
      by_cases hcl : cl = []
      · subst hcl
        simp [sliceLen]
      · have hlen : sliceLen (Option.some cl) ≠ sliceLen (Option.none : Option (List T)) := by
          simpa [sliceLen, List.length_eq_zero] using hcl
        simp [hcl, hlen]

/-- Witness for the amended C2 at a concrete input: `declared` a present
empty sequence, `observed` nil; the result is a present empty sequence. -/
theorem c2_amended_witness :
    ((Option.some ([] : List Nat)) = Option.none ∨
      (Option.none : Option (List Nat)) = Option.none) ∧
    fixSliceOrder (Option.some ([] : List Nat)) Option.none =
      (if sliceLen (Option.some ([] : List Nat)) = sliceLen (Option.none : Option (List Nat)) then
        (if (Option.some ([] : List Nat)) = Option.none then Option.none else Option.some [])
      else Option.none) :=
  ⟨Or.inr rfl, c2_amended_absent_marker (Option.some []) Option.none (Or.inr rfl)⟩

/-! ## The wire data model (pkg/cronitor types.go)

`Request` and `Monitor` embed the JSON structs of the `cronitor` package.
Pointer fields (`*int`, `*string`) become `Option _`; plain slices become
`List _` (the client and mapper code only ever observes their length and
elements, never nil-ness); `map[string]string` becomes an association
list. -/

structure Request where
  url : String
  headers : List (String × String)
  cookies : List (String × String)
  body : String
  method : String
  timeoutSeconds : Int
  regions : List String
  followRedirects : Bool
  verifySsl : Bool
deriving DecidableEq, Repr, Inhabited

structure Monitor where
  name : String
  assertions : List String
  disabled : Bool
  failureTolerance : Option Int
  graceSeconds : Option Int
  group : Option String
  key : String
  notify : List String
  paused : Bool
  platform : String
  realertInterval : String
  request : Option Request
  running : Bool
  schedule : String
  scheduleTolerance : Option Int
  tags : List String
  timezone : Option String
  type : String
  environments : List String
deriving DecidableEq, Repr, Inhabited

structure Notifications where
  emails : List String
  slack : List String
  pagerduty : List String
  phones : List String
  webhooks : List String
deriving DecidableEq, Repr, Inhabited

structure NotificationList where
  name : String
  key : String
  notifications : Notifications
deriving DecidableEq, Repr, Inhabited

/-! ## The terraform-side models (internal/provider/types.go)

Each terraform framework value is `Option _`, `Option.none` standing for
the null value.  `BaseMonitorModel` is inlined into both variants, as Go
struct embedding does. -/

structure HttpMonitorModel where
  key : Option String
  name : Option String
  disabled : Option Bool
  paused : Option Bool
  schedule : Option String
  notify : Option (List String)
  scheduleTolerance : Option Int
  failureTolerance : Option Int
  graceSeconds : Option Int
  realertInterval : Option String
  timezone : Option String
  tags : Option (List String)
  environments : Option (List String)
  group : Option String
  url : Option String
  headers : Option (List (String × String))
  cookies : Option (List (String × String))
  body : Option String
  method : Option String
  timeoutSeconds : Option Int
  regions : Option (List String)
  followRedirects : Option Bool
  verifySsl : Option Bool
  assertions : Option (List String)
deriving DecidableEq, Repr, Inhabited

structure HeartbeatMonitorModel where
  key : Option String
  name : Option String
  disabled : Option Bool
  paused : Option Bool
  schedule : Option String
  notify : Option (List String)
  scheduleTolerance : Option Int
  failureTolerance : Option Int
  graceSeconds : Option Int
  realertInterval : Option String
  timezone : Option String
  tags : Option (List String)
  environments : Option (List String)
  group : Option String
  telemetryUrl : Option String
deriving DecidableEq, Repr, Inhabited

/-- `stringSlice` / `processSlice`: a zero-length Go slice maps to the null
terraform list, anything else to a value list with the same elements. -/
def stringSlice (l : List String) : Option (List String) :=
  if l.length = 0 then Option.none else Option.some l

/-- `toStringSlice`: a null terraform list yields the empty Go slice,
a value list yields its elements. -/
def toStringSlice (l : Option (List String)) : List String :=
  l.getD []

/-- `toStringMap`: a null terraform map yields the empty Go map. -/
def toStringMap (m : Option (List (String × String))) : List (String × String) :=
  m.getD []

/-! ## The toWire mappers (internal/provider/types.go) -/

/-- `httpToMonitorRequest`: maps the declared HTTP monitor model to the
wire `Monitor`.  Fields of the zero-valued `cronitor.Monitor` literal not
assigned by the source are the Go zero values (`""`, `false`,
`Option.none`, `[]`); each subsequent `if` statement of the source becomes
one functional record update. -/
def httpToMonitorRequest (data : HttpMonitorModel) : Monitor :=
  let out : Monitor :=
    { name := data.name.getD ""
      assertions := toStringSlice data.assertions
      disabled := data.disabled.getD false
      paused := data.disabled.getD false
      notify := toStringSlice data.notify
      tags := toStringSlice data.tags
      environments := toStringSlice data.environments
      type := "check"
      platform := "http"
      request := Option.some
        { url := data.url.getD ""
          method := data.method.getD ""
          headers := toStringMap data.headers
          cookies := toStringMap data.cookies
          body := data.body.getD ""
          regions := toStringSlice data.regions
          timeoutSeconds := data.timeoutSeconds.getD 0
          followRedirects := data.followRedirects.getD false
          verifySsl := data.verifySsl.getD false }
      failureTolerance := Option.none
      graceSeconds := Option.none
      group := Option.none
      key := ""
      realertInterval := ""
      running := false
      schedule := ""
      scheduleTolerance := Option.none
      timezone := Option.none }
  let out := if out.realertInterval = "" then { out with realertInterval := "every 8 hours" } else out
  let out := if data.schedule.getD "" ≠ "" then { out with schedule := data.schedule.getD "" } else out
  let out := { out with
    graceSeconds := Option.some (data.graceSeconds.getD 0)
    scheduleTolerance := Option.some (data.scheduleTolerance.getD 0)
    failureTolerance := Option.some (data.failureTolerance.getD 0) }
  let out := if data.timezone.getD "" ≠ "" then { out with timezone := Option.some (data.timezone.getD "") } else out
  let out := if data.group.getD "" ≠ "" then { out with group := Option.some (data.group.getD "") } else out
  out

/-- `heartbeatToMonitorRequest`: maps the declared heartbeat monitor model
to the wire `Monitor`. -/
def heartbeatToMonitorRequest (data : HeartbeatMonitorModel) : Monitor :=
  let out : Monitor :=
    { name := data.name.getD ""
      disabled := data.disabled.getD false
      paused := data.disabled.getD false
      notify := toStringSlice data.notify
      tags := toStringSlice data.tags
      environments := toStringSlice data.environments
      type := "heartbeat"
      platform := "linux"
      assertions := []
      failureTolerance := Option.none
      graceSeconds := Option.none
      group := Option.none
      key := ""
      realertInterval := ""
      request := Option.none
      running := false
      schedule := ""
      scheduleTolerance := Option.none
      timezone := Option.none }
  let out := if out.realertInterval = "" then { out with realertInterval := "every 8 hours" } else out
  let out := if data.schedule.getD "" ≠ "" then { out with schedule := data.schedule.getD "" } else out
  let out := { out with
    graceSeconds := Option.some (data.graceSeconds.getD 0)
    scheduleTolerance := Option.some (data.scheduleTolerance.getD 0)
    failureTolerance := Option.some (data.failureTolerance.getD 0) }
  let out := if data.timezone.getD "" ≠ "" then { out with timezone := Option.some (data.timezone.getD "") } else out
  let out := if data.group.getD "" ≠ "" then { out with group := Option.some (data.group.getD "") } else out
  out

/-! ## The fromWire mappers (internal/provider/types.go) -/

/-- Go's `int32(x)` narrowing conversion on an `int` value: two's-complement
wrap into the interval `[-2^31, 2^31)`. -/
def wrapInt32 (x : Int) : Int :=
  (x + 2147483648) % 4294967296 - 2147483648

/-- `toHttpMonitor`: maps a wire `Monitor` back to the HTTP model.  The
source dereferences `m.Request` unconditionally, so the embedding returns
`Option.none` exactly when the wire monitor carries no request (the Go
code would panic there; no caller reaches it, since every monitor sent or
fetched for this resource carries a request).  The timeout and the three
tolerance fields pass through Go's `int32(...)` narrowing conversion. -/
def toHttpMonitor (m : Monitor) : Option HttpMonitorModel :=
  m.request.map fun r =>
    { key := Option.some m.key
      name := Option.some m.name
      disabled := Option.some m.disabled
      paused := Option.some m.paused
      schedule := Option.some m.schedule
      notify := stringSlice m.notify
      tags := stringSlice m.tags
      realertInterval := Option.some m.realertInterval
      environments := stringSlice m.environments
      assertions := stringSlice m.assertions
      url := Option.some r.url
      method := Option.some r.method
      headers := if r.headers.length > 0 then Option.some r.headers else Option.none
      cookies := if r.cookies.length > 0 then Option.some r.cookies else Option.none
      body := Option.none
      timeoutSeconds := Option.some (wrapInt32 r.timeoutSeconds)
      regions := stringSlice r.regions
      followRedirects := Option.some r.followRedirects
      verifySsl := Option.some r.verifySsl
      timezone := m.timezone
      scheduleTolerance := m.scheduleTolerance.map wrapInt32
      failureTolerance := m.failureTolerance.map wrapInt32
      graceSeconds := m.graceSeconds.map wrapInt32
      group := m.group }

/-- `toHeartbeatMonitor`: maps a wire `Monitor` back to the heartbeat
model.  The derived telemetry URL is computed by the resource layer, not
by this mapper, so it is the null value here.  The three tolerance fields
pass through Go's `int32(...)` narrowing conversion. -/
def toHeartbeatMonitor (m : Monitor) : HeartbeatMonitorModel :=
  { key := Option.some m.key
    name := Option.some m.name
    disabled := Option.some m.disabled
    paused := Option.some m.paused
    schedule := Option.some m.schedule
    notify := stringSlice m.notify
    tags := stringSlice m.tags
    realertInterval := Option.some m.realertInterval
    environments := stringSlice m.environments
    timezone := m.timezone
    scheduleTolerance := m.scheduleTolerance.map wrapInt32
    failureTolerance := m.failureTolerance.map wrapInt32
    graceSeconds := m.graceSeconds.map wrapInt32
    group := m.group
    telemetryUrl := Option.none }

/-- Normal form of `httpToMonitorRequest`: the sequential conditional
assignments of the source collapse to one record.  The realert interval is
always the constant (the freshly-built wire monitor starts from the zero
value `""`), the schedule conditional collapses to the null-defaulted
getter, and the three tolerance pointers are always populated. -/
theorem httpToMonitorRequest_eq (d : HttpMonitorModel) :
    httpToMonitorRequest d =
      { name := d.name.getD ""
        assertions := toStringSlice d.assertions
        disabled := d.disabled.getD false
        paused := d.disabled.getD false
        notify := toStringSlice d.notify
        tags := toStringSlice d.tags
        environments := toStringSlice d.environments
        type := "check"
        platform := "http"
        request := Option.some
          { url := d.url.getD ""
            method := d.method.getD ""
            headers := toStringMap d.headers
            cookies := toStringMap d.cookies
            body := d.body.getD ""
            regions := toStringSlice d.regions
            timeoutSeconds := d.timeoutSeconds.getD 0
            followRedirects := d.followRedirects.getD false
            verifySsl := d.verifySsl.getD false }
        failureTolerance := Option.some (d.failureTolerance.getD 0)
        graceSeconds := Option.some (d.graceSeconds.getD 0)
        scheduleTolerance := Option.some (d.scheduleTolerance.getD 0)
        group := if d.group.getD "" = "" then Option.none else Option.some (d.group.getD "")
        timezone := if d.timezone.getD "" = "" then Option.none else Option.some (d.timezone.getD "")
        key := ""
        realertInterval := "every 8 hours"
        running := false
        schedule := d.schedule.getD "" } := by
  unfold httpToMonitorRequest
  by_cases hs : d.schedule.getD "" = "" <;> by_cases ht : d.timezone.getD "" = "" <;>
    by_cases hg : d.group.getD "" = "" <;> simp [hs, ht, hg]

/-- Normal form of `heartbeatToMonitorRequest`, by the same collapse. -/
theorem heartbeatToMonitorRequest_eq (hb : HeartbeatMonitorModel) :
    heartbeatToMonitorRequest hb =
      { name := hb.name.getD ""
        disabled := hb.disabled.getD false
        paused := hb.disabled.getD false
        notify := toStringSlice hb.notify
        tags := toStringSlice hb.tags
        environments := toStringSlice hb.environments
        type := "heartbeat"
        platform := "linux"
        assertions := []
        failureTolerance := Option.some (hb.failureTolerance.getD 0)
        graceSeconds := Option.some (hb.graceSeconds.getD 0)
        scheduleTolerance := Option.some (hb.scheduleTolerance.getD 0)
        group := if hb.group.getD "" = "" then Option.none else Option.some (hb.group.getD "")
        timezone := if hb.timezone.getD "" = "" then Option.none else Option.some (hb.timezone.getD "")
        key := ""
        realertInterval := "every 8 hours"
        request := Option.none
        running := false
        schedule := hb.schedule.getD "" } := by
  unfold heartbeatToMonitorRequest
  by_cases hs : hb.schedule.getD "" = "" <;> by_cases ht : hb.timezone.getD "" = "" <;>
    by_cases hg : hb.group.getD "" = "" <;> simp [hs, ht, hg]

/-- The all-null declared HTTP monitor model. -/
def emptyHttpModel : HttpMonitorModel :=
  { key := Option.none, name := Option.none, disabled := Option.none, paused := Option.none
    schedule := Option.none, notify := Option.none, scheduleTolerance := Option.none
    failureTolerance := Option.none, graceSeconds := Option.none, realertInterval := Option.none
    timezone := Option.none, tags := Option.none, environments := Option.none, group := Option.none
    url := Option.none, headers := Option.none, cookies := Option.none, body := Option.none
    method := Option.none, timeoutSeconds := Option.none, regions := Option.none
    followRedirects := Option.none, verifySsl := Option.none, assertions := Option.none }

/-- Counterexample to C3 as stated: a declared HTTP monitor whose grace
seconds field is explicitly absent maps to a wire request carrying grace
seconds zero, and maps back to an explicit zero rather than an absent
field — absence is conflated with zero in the toWire direction. -/
theorem c3_counterexample :
    emptyHttpModel.graceSeconds = Option.none ∧
    (httpToMonitorRequest emptyHttpModel).graceSeconds = Option.some 0 ∧
    ((toHttpMonitor (httpToMonitorRequest emptyHttpModel)).map fun x => x.graceSeconds) =
      Option.some (Option.some 0) :=
  ⟨rfl, rfl, rfl⟩

/-- C3 amended: the toWire mappers always populate the tolerance pointers,
with the declared value when present and with zero when the declared field
is absent — so an explicitly-zero tolerance is sent (and round-trips) as
zero, while an explicitly-absent tolerance is also sent as zero and
round-trips as zero, never as absent.  Only the fromWire direction keeps
absence and zero apart: an absent wire field maps to an absent model field
and a present wire field to a present model field whose value passes
through Go's `int32` narrowing conversion — which fixes zero, so a zero
wire field maps to an explicit zero. -/
theorem c3_amended_tolerance_conflation (d : HttpMonitorModel) (hb : HeartbeatMonitorModel)
    (w : Monitor) :
    (httpToMonitorRequest d).graceSeconds = Option.some (d.graceSeconds.getD 0) ∧
    (httpToMonitorRequest d).scheduleTolerance = Option.some (d.scheduleTolerance.getD 0) ∧
    (httpToMonitorRequest d).failureTolerance = Option.some (d.failureTolerance.getD 0) ∧
    (heartbeatToMonitorRequest hb).graceSeconds = Option.some (hb.graceSeconds.getD 0) ∧
    (heartbeatToMonitorRequest hb).scheduleTolerance = Option.some (hb.scheduleTolerance.getD 0) ∧
    (heartbeatToMonitorRequest hb).failureTolerance = Option.some (hb.failureTolerance.getD 0) ∧
    (toHeartbeatMonitor w).graceSeconds = w.graceSeconds.map wrapInt32 ∧
    (toHeartbeatMonitor w).scheduleTolerance = w.scheduleTolerance.map wrapInt32 ∧
    (toHeartbeatMonitor w).failureTolerance = w.failureTolerance.map wrapInt32 ∧
    wrapInt32 0 = 0 ∧
    (toHeartbeatMonitor (heartbeatToMonitorRequest hb)).graceSeconds =
      Option.some (wrapInt32 (hb.graceSeconds.getD 0)) ∧
    ((toHttpMonitor (httpToMonitorRequest d)).map fun x => x.graceSeconds) =
      Option.some (Option.some (wrapInt32 (d.graceSeconds.getD 0))) := by
  have hz : wrapInt32 0 = 0 := by decide
  simp [httpToMonitorRequest_eq, heartbeatToMonitorRequest_eq, toHttpMonitor, toHeartbeatMonitor, hz]

/-- C9: both toWire mappers set the wire request's paused field from the
model's disabled field, and the model's own declared paused value is never
transmitted — the wire monitor is invariant under any change of the
declared paused value. -/
theorem c9_paused_mirrors_disabled (d : HttpMonitorModel) (hb : HeartbeatMonitorModel)
    (p q : Option Bool) :
    (httpToMonitorRequest d).paused = d.disabled.getD false ∧
    (heartbeatToMonitorRequest hb).paused = hb.disabled.getD false ∧
    httpToMonitorRequest { d with paused := p } = httpToMonitorRequest { d with paused := q } ∧
    heartbeatToMonitorRequest { hb with paused := p } =
      heartbeatToMonitorRequest { hb with paused := q } := by
  refine ⟨?_, ?_, ?_, ?_⟩ <;> simp [httpToMonitorRequest_eq, heartbeatToMonitorRequest_eq]

/-- C10: both toWire mappers never read the model's realert interval: the
wire request's realert interval is the constant string for every model,
and the wire monitor is invariant under any change of the declared realert
interval.  The mappers are the single translation path used by both the
create and the update resource operations. -/
theorem c10_realert_interval_constant (d : HttpMonitorModel) (hb : HeartbeatMonitorModel)
    (r s : Option String) :
    (httpToMonitorRequest d).realertInterval = "every 8 hours" ∧
    (heartbeatToMonitorRequest hb).realertInterval = "every 8 hours" ∧
    httpToMonitorRequest { d with realertInterval := r } =
      httpToMonitorRequest { d with realertInterval := s } ∧
    heartbeatToMonitorRequest { hb with realertInterval := r } =
      heartbeatToMonitorRequest { hb with realertInterval := s } := by
  refine ⟨?_, ?_, ?_, ?_⟩ <;> simp [httpToMonitorRequest_eq, heartbeatToMonitorRequest_eq]

/-! ## The typed HTTP client (pkg/cronitor client)

The transport is an oracle from requests to responses: `c.client.Do` is
`t req`.  Responses carry the status code and the already-decoded bodies
the callers unmarshal into (`Monitor` or `NotificationList`); JSON
encoding/decoding and network-level failures are orthogonal to the claims
settled here and are not modelled.  Every request a call issues is
recorded, in order, in the `trace` of its `CallResult`.  Monitor paths
follow the client revision without the `/api` prefix; the notification
list endpoints live under `/v1/templates` as in the source. -/

inductive Method
  | get
  | post
  | put
  | delete
deriving DecidableEq, Repr

inductive Payload
  | empty
  | monitor (m : Monitor)
  | list (l : NotificationList)
deriving DecidableEq, Repr

structure HttpReq where
  method : Method
  path : String
  payload : Payload
deriving DecidableEq, Repr

structure HttpResp where
  status : Nat
  monBody : Monitor
  listBody : NotificationList
deriving DecidableEq, Repr

def Transport : Type := HttpReq → HttpResp

structure CallResult (α : Type) where
  result : Except String α
  trace : List HttpReq

/-- `Client.setCreateDefaults`: fills the create-time defaults into the
monitor in place; the embedding returns the updated monitor. -/
def setCreateDefaults (mon : Monitor) : Monitor :=
  let mon := if mon.realertInterval = "" then { mon with realertInterval := "every 8 hours" } else mon
  let mon := if mon.notify.length = 0 then { mon with notify := ["default"] } else mon
  let mon := if mon.environments.length = 0 then { mon with environments := ["production"] } else mon
  match mon.request with
  | Option.none => mon
  | Option.some r =>
    if r.timeoutSeconds = 0 then { mon with request := Option.some { r with timeoutSeconds := 5 } }
    else mon

/-- `Client.GetMonitor`: `GET /monitors/<id>`, requiring status 200. -/
def GetMonitor (t : Transport) (id : String) : CallResult Monitor :=
  let req : HttpReq := { method := Method.get, path := "/monitors/" ++ id, payload := Payload.empty }
  let resp := t req
  if resp.status ≠ 200 then
    { result := Except.error "failed to get monitor details", trace := [req] }
  else
    { result := Except.ok resp.monBody, trace := [req] }

/-- `Client.CreateMonitor`: defaults the monitor in place, issues
`POST /monitors` expecting 201, then re-fetches by the key of the create
response.  The second component is the final value of the caller's
monitor (mutated through the pointer by `setCreateDefaults`). -/
def CreateMonitor (t : Transport) (monitor : Monitor) : CallResult Monitor × Monitor :=
  let monitor := setCreateDefaults monitor
  let req : HttpReq := { method := Method.post, path := "/monitors", payload := Payload.monitor monitor }
  let resp := t req
  if resp.status ≠ 201 then
    ({ result := Except.error "failed to create monitor", trace := [req] }, monitor)
  else
    let g := GetMonitor t resp.monBody.key
    ({ result := g.result, trace := req :: g.trace }, monitor)

/-- `Client.UpdateMonitor`: rejects an empty key before building any
request, then issues `PUT /monitors/<key>` expecting 200 and re-fetches. -/
def UpdateMonitor (t : Transport) (monitor : Monitor) : CallResult Monitor :=
  if monitor.key = "" then
    { result := Except.error "cannot update monitor with empty key", trace := [] }
  else
    let req : HttpReq :=
      { method := Method.put, path := "/monitors/" ++ monitor.key, payload := Payload.monitor monitor }
    let resp := t req
    if resp.status ≠ 200 then
      { result := Except.error "failed to update monitor", trace := [req] }
    else
      let g := GetMonitor t monitor.key
      { result := g.result, trace := req :: g.trace }

/-- `Client.DeleteMonitor`: `DELETE /monitors/<id>`; any status above 299
is a failure, anything else succeeds. -/
def DeleteMonitor (t : Transport) (id : String) : CallResult Unit :=
  let req : HttpReq := { method := Method.delete, path := "/monitors/" ++ id, payload := Payload.empty }
  let resp := t req
  if resp.status > 299 then
    { result := Except.error "failed to delete monitor", trace := [req] }
  else
    { result := Except.ok (), trace := [req] }

/-- `Client.GetNotificationList`: `GET /v1/templates/<id>`, requiring 200. -/
def GetNotificationList (t : Transport) (id : String) : CallResult NotificationList :=
  let req : HttpReq := { method := Method.get, path := "/v1/templates/" ++ id, payload := Payload.empty }
  let resp := t req
  if resp.status ≠ 200 then
    { result := Except.error "failed to get notification list", trace := [req] }
  else
    { result := Except.ok resp.listBody, trace := [req] }

/-- The character class of the key pattern `^[0-9a-z0-9-_]+$`: ASCII
digits, lowercase ASCII letters, dash and underscore. -/
def listKeyCharOk (c : Char) : Bool :=
  c.isDigit || c.isLower || c = '-' || c = '_'

/-- Full-string match of the anchored pattern `^[0-9a-z0-9-_]+$`. -/
def listKeyMatches (s : String) : Bool :=
  s.length > 0 && s.toList.all listKeyCharOk

/-- `hex.EncodeToString` on a byte slice: two lowercase hex digits per
byte. -/
def hexDigitChar (n : Nat) : Char :=
  if n < 10 then Char.ofNat (48 + n) else Char.ofNat (87 + n)

def hexEncode (bs : List Nat) : String :=
  String.mk ((bs.map fun b => [hexDigitChar ((b % 256) / 16), hexDigitChar (b % 16)]).flatten)

/-- `strings.ToLower`: per-character lowercasing (every name exercised
here is ASCII). -/
def toLowerStr (s : String) : String :=
  String.mk (s.data.map Char.toLower)

/-- The client-side notification-list key derivation:
`fmt.Sprintf("%s-%s", strings.ToLower(list.Name), hex.EncodeToString(key))`
with `key` the 3 random bytes. -/
def deriveListKey (name : String) (randomBytes : List Nat) : String :=
  toLowerStr name ++ "-" ++ hexEncode randomBytes

/-- `Client.CreateNotificationList`: derives the key from the name and the
random bytes (passed as a parameter here, where the source draws 3 bytes
from `crypto/rand`), validates it against the key pattern before building
any request, then issues `POST /v1/templates` expecting 201 and
re-fetches.  The second component is the final value of the caller's list
(its key is assigned in place before validation). -/
def CreateNotificationList (t : Transport) (randomBytes : List Nat) (list : NotificationList) :
    CallResult NotificationList × NotificationList :=
  let list := { list with key := deriveListKey list.name randomBytes }
  if listKeyMatches list.key = false then
    let msg := "invalid key, only lowercase letters, numbers, dashes and underscores: " ++ list.key
    ({ result := Except.error msg, trace := [] }, list)
  else
    let req : HttpReq := { method := Method.post, path := "/v1/templates", payload := Payload.list list }
    let resp := t req
    if resp.status ≠ 201 then
      ({ result := Except.error "failed to create notification list", trace := [req] }, list)
    else
      let g := GetNotificationList t list.key
      ({ result := g.result, trace := req :: g.trace }, list)

/-- `Client.UpdateNotificationList`: issues `PUT /v1/templates/<key>`
expecting 200, then re-fetches.  No key precondition is checked. -/
def UpdateNotificationList (t : Transport) (list : NotificationList) : CallResult NotificationList :=
  let req : HttpReq :=
    { method := Method.put, path := "/v1/templates/" ++ list.key, payload := Payload.list list }
  let resp := t req
  if resp.status ≠ 200 then
    { result := Except.error "failed to update notification list", trace := [req] }
  else
    let g := GetNotificationList t list.key
    { result := g.result, trace := req :: g.trace }

/-- `Client.DeleteNotificationList`: `DELETE /v1/templates/<key>` with the
list as body; only status 204 succeeds.  (The source's error message says
"update" here; the embedding keeps the source's text.) -/
def DeleteNotificationList (t : Transport) (list : NotificationList) : CallResult Unit :=
  let req : HttpReq :=
    { method := Method.delete, path := "/v1/templates/" ++ list.key, payload := Payload.list list }
  let resp := t req
  if resp.status ≠ 204 then
    { result := Except.error "failed to update notification list", trace := [req] }
  else
    { result := Except.ok (), trace := [req] }

/-- Boolean success of an `Except` outcome. -/
def exceptOk {ε α : Type} : Except ε α → Bool
  | Except.ok _ => true
  | Except.error _ => false

/-! ## Concrete fixtures used by the closed theorems -/

/-- The zero-valued wire monitor. -/
def emptyMonitor : Monitor :=
  { name := "", assertions := [], disabled := false, failureTolerance := Option.none
    graceSeconds := Option.none, group := Option.none, key := "", notify := [], paused := false
    platform := "", realertInterval := "", request := Option.none, running := false, schedule := ""
    scheduleTolerance := Option.none, tags := [], timezone := Option.none, type := ""
    environments := [] }

def emptyNotifications : Notifications :=
  { emails := [], slack := [], pagerduty := [], phones := [], webhooks := [] }

def sampleList : NotificationList :=
  { name := "oncall", key := "oncall-1a2b3c", notifications := emptyNotifications }

/-- A notification list whose identity key is unset. -/
def noKeyList : NotificationList :=
  { name := "oncall", key := "", notifications := emptyNotifications }

/-- A transport answering every request with the given status. -/
def alwaysStatus (s : Nat) : Transport :=
  fun _ => { status := s, monBody := emptyMonitor, listBody := sampleList }

/-! ## Claim C4: end-to-end HTTP monitor creation -/

/-- The static attribute defaults declared in `HttpMonitorResource.Schema`:
every Optional+Computed attribute of the HTTP monitor schema carries a
static `Default` that the plugin framework substitutes for a null
configuration value before the plan reaches `Create`.  Attributes declared
without a default (assertions, headers, cookies, body, regions, tags,
timezone) stay null.  The default values are taken verbatim from the
schema declarations. -/
def applyHttpSchemaDefaults (m : HttpMonitorModel) : HttpMonitorModel :=
  { m with
    disabled := Option.some (m.disabled.getD false)
    failureTolerance := Option.some (m.failureTolerance.getD 0)
    graceSeconds := Option.some (m.graceSeconds.getD 0)
    paused := Option.some (m.paused.getD false)
    realertInterval := Option.some (m.realertInterval.getD "every 8 hours")
    timeoutSeconds := Option.some (m.timeoutSeconds.getD 5)
    followRedirects := Option.some (m.followRedirects.getD true)
    verifySsl := Option.some (m.verifySsl.getD true)
    scheduleTolerance := Option.some (m.scheduleTolerance.getD 0)
    notify := Option.some (m.notify.getD ["default"])
    environments := Option.some (m.environments.getD ["production"]) }

/-- The declared configuration of the C4 scenario: only name, url, method
and schedule are set; no assertions. -/
def exampleDeclared : HttpMonitorModel :=
  { emptyHttpModel with
    name := Option.some "Example"
    url := Option.some "https://example.com"
    method := Option.some "GET"
    schedule := Option.some "every 5 minutes" }

/-- The wire monitor the resource layer hands to `CreateMonitor` for the
C4 scenario. -/
def c4WireMonitor : Monitor :=
  httpToMonitorRequest (applyHttpSchemaDefaults exampleDeclared)

/-- The monitor actually sent in the create request (after the client's
create-time defaulting). -/
def c4SentMonitor : Monitor :=
  setCreateDefaults c4WireMonitor

/-- A transport for the C4 scenario: the create succeeds with 201 and a
response body carrying `created` (typically only the identity key), and
every get succeeds with 200 and body `full`. -/
def c4Transport (created full : Monitor) : Transport := fun req =>
  match req.method with
  | Method.post => { status := 201, monBody := created, listBody := sampleList }
  | Method.get => { status := 200, monBody := full, listBody := sampleList }
  | _ => { status := 500, monBody := created, listBody := sampleList }

/-- C4: creating an HTTP monitor declared only with name, url, method
"GET", schedule "every 5 minutes" and no assertions sends a create request
whose body has follow_redirects true, verify_ssl true, timeout_seconds 5,
notify ["default"], environments ["production"] and realert_interval
"every 8 hours"; on a 201 response the client issues a follow-up get keyed
on the identity key of the create response, and the result of that get is
exactly the value create returns to the caller. -/
theorem c4_end_to_end_create (created full : Monitor) :
    (CreateMonitor (c4Transport created full) c4WireMonitor).1.result = Except.ok full ∧
    (CreateMonitor (c4Transport created full) c4WireMonitor).1.trace =
      [{ method := Method.post, path := "/monitors", payload := Payload.monitor c4SentMonitor },
       { method := Method.get, path := "/monitors/" ++ created.key, payload := Payload.empty }] ∧
    (c4SentMonitor.request.map fun r => r.followRedirects) = Option.some true ∧
    (c4SentMonitor.request.map fun r => r.verifySsl) = Option.some true ∧
    (c4SentMonitor.request.map fun r => r.timeoutSeconds) = Option.some 5 ∧
    c4SentMonitor.notify = ["default"] ∧
    c4SentMonitor.environments = ["production"] ∧
    c4SentMonitor.realertInterval = "every 8 hours" ∧
    c4SentMonitor.name = "Example" ∧
    c4SentMonitor.schedule = "every 5 minutes" ∧
    (c4SentMonitor.request.map fun r => r.url) = Option.some "https://example.com" ∧
    (c4SentMonitor.request.map fun r => r.method) = Option.some "GET" ∧
    c4SentMonitor.assertions = [] :=
  ⟨rfl, rfl, rfl, rfl, rfl, rfl, rfl, rfl, rfl, rfl, rfl, rfl, rfl⟩

/-! ## Claim C5: missing-key precondition on update -/

/-- Counterexample to C5 as stated: updating a notification list whose
identity key is unset does not fail with a missing-key error — it builds
and sends the PUT (and the follow-up get) and succeeds when the service
answers 200. -/
theorem c5_counterexample :
    (UpdateNotificationList (alwaysStatus 200) noKeyList).trace =
      [{ method := Method.put, path := "/v1/templates/", payload := Payload.list noKeyList },
       { method := Method.get, path := "/v1/templates/", payload := Payload.empty }] ∧
    (UpdateNotificationList (alwaysStatus 200) noKeyList).result = Except.ok sampleList :=
  ⟨rfl, rfl⟩

/-- C5 amended: only the monitor update (the single path shared by the
HTTP-check and heartbeat kinds) checks its identity key, failing
immediately, with no request built or sent, when the key is unset; the
notification-list update performs no such check and always issues the PUT
keyed on whatever key the spec carries, empty or not. -/
theorem c5_amended_missing_key (t : Transport) (m : Monitor) (l : NotificationList) :
    (m.key = "" →
      UpdateMonitor t m =
        { result := Except.error "cannot update monitor with empty key", trace := [] }) ∧
    (UpdateNotificationList t l).trace.head? =
      Option.some { method := Method.put, path := "/v1/templates/" ++ l.key, payload := Payload.list l } := by
  constructor
  · intro h
    unfold UpdateMonitor
    simp [h]
  · unfold UpdateNotificationList
    dsimp only
    split <;> rfl

/-- Witness for the amended C5 at concrete inputs. -/
theorem c5_amended_witness :
    (emptyMonitor.key = "" ∧
      UpdateMonitor (alwaysStatus 200) emptyMonitor =
        { result := Except.error "cannot update monitor with empty key", trace := [] }) ∧
    (UpdateNotificationList (alwaysStatus 200) noKeyList).trace.head? =
      Option.some
        { method := Method.put
          path := "/v1/templates/" ++ noKeyList.key
          payload := Payload.list noKeyList } :=
  ⟨⟨rfl, (c5_amended_missing_key (alwaysStatus 200) emptyMonitor noKeyList).1 rfl⟩,
    (c5_amended_missing_key (alwaysStatus 200) emptyMonitor noKeyList).2⟩

/-! ## Claim C6: create-time defaulting and the caller's value -/

/-- Counterexample to C6 as stated: `CreateMonitor` mutates the caller's
monitor through the pointer — after a create call on a monitor with an
empty notify list, the caller's value carries the filled-in defaults and
is no longer equal to its pre-call value. -/
theorem c6_counterexample :
    emptyMonitor.notify = [] ∧
    (CreateMonitor (alwaysStatus 500) emptyMonitor).2.notify = ["default"] ∧
    (CreateMonitor (alwaysStatus 500) emptyMonitor).2 ≠ emptyMonitor := by
  refine ⟨rfl, rfl, fun h => ?_⟩
  have := congrArg Monitor.notify h
  simp [CreateMonitor, setCreateDefaults, emptyMonitor, alwaysStatus] at this

/-- C6 amended: `CreateMonitor` applies the create-time defaulting to the
caller's monitor in place — after the call (successful or not) the
caller's value is exactly `setCreateDefaults` of the input, so it is
unchanged precisely when the defaulted fields (notify, environments,
realert interval, request timeout) were already set, and carries the
defaults otherwise. -/
theorem c6_amended_in_place_defaulting (t : Transport) (m : Monitor) :
    (CreateMonitor t m).2 = setCreateDefaults m ∧
    (m.notify ≠ [] → m.environments ≠ [] → m.realertInterval ≠ "" →
      (∀ r, m.request = Option.some r → r.timeoutSeconds ≠ 0) →
      (CreateMonitor t m).2 = m) := by
  have h2 : (CreateMonitor t m).2 = setCreateDefaults m := by
    unfold CreateMonitor
    dsimp only
    split <;> rfl
  refine ⟨h2, fun hn he hr ht => ?_⟩
  rw [h2]
  have hnl : ¬ (m.notify.length = 0) := by simpa [List.length_eq_zero] using hn
  have hel : ¬ (m.environments.length = 0) := by simpa [List.length_eq_zero] using he
  unfold setCreateDefaults
  rcases hq : m.request with _ | r
  · simp [hr, hnl, hel, hq]
  · simp [hr, hnl, hel, hq, ht r hq]

/-- A monitor whose defaulted fields are all already set. -/
def presetMonitor : Monitor :=
  { emptyMonitor with
    notify := ["default"]
    environments := ["production"]
    realertInterval := "every 8 hours" }

/-- Witness for the amended C6: a monitor with all defaulted fields
already set is returned to the caller unchanged. -/
theorem c6_amended_witness :
    presetMonitor.notify ≠ [] ∧ presetMonitor.environments ≠ [] ∧
    presetMonitor.realertInterval ≠ "" ∧
    (CreateMonitor (alwaysStatus 500) presetMonitor).2 = presetMonitor :=
  ⟨by decide, by decide, by decide,
    (c6_amended_in_place_defaulting (alwaysStatus 500) presetMonitor).2
      (by decide) (by decide) (by decide) (fun r h => Option.noConfusion h)⟩

/-! ## Claim C7: notification-list key derivation and validation -/

/-- C7: creating a notification list derives the candidate key as the
lower-cased display name joined by a dash to the hex encoding of the
random bytes; when the derived key fails the `^[0-9a-z0-9-_]+$` pattern
the create fails with a validation error and zero transport invocations,
and when it matches, the create request is the POST carrying the list
with exactly that key. -/
theorem c7_list_key_derivation (t : Transport) (bs : List Nat) (l : NotificationList) :
    (listKeyMatches (deriveListKey l.name bs) = false →
      (CreateNotificationList t bs l).1.trace = [] ∧
      exceptOk (CreateNotificationList t bs l).1.result = false) ∧
    (listKeyMatches (deriveListKey l.name bs) = true →
      (CreateNotificationList t bs l).1.trace.head? =
        Option.some
          { method := Method.post
            path := "/v1/templates"
            payload := Payload.list { l with key := deriveListKey l.name bs } }) := by
  constructor
  · intro h
    unfold CreateNotificationList
    simp [h, exceptOk]
  · intro h
    unfold CreateNotificationList
    simp only [h]
    split
    · next hc => exact absurd hc (by decide)
    · split <;> rfl

/-- A display name containing a space, as in the derivation example. -/
def demoList : NotificationList :=
  { name := "Demo Alerts", key := "", notifications := emptyNotifications }

/-- A display name free of illegal characters. -/
def cleanList : NotificationList :=
  { name := "demo", key := "", notifications := emptyNotifications }

/-- Witness for C7: name "Demo Alerts" with random bytes 0x1a 0x2b 0x3c
derives "demo alerts-1a2b3c", which fails the pattern and short-circuits
with zero transport invocations; name "demo" derives "demo-1a2b3c", which
matches and is sent as the key of the create request. -/
theorem c7_witness :
    deriveListKey demoList.name [26, 43, 60] = "demo alerts-1a2b3c" ∧
    listKeyMatches (deriveListKey demoList.name [26, 43, 60]) = false ∧
    (CreateNotificationList (alwaysStatus 201) [26, 43, 60] demoList).1.trace = [] ∧
    exceptOk (CreateNotificationList (alwaysStatus 201) [26, 43, 60] demoList).1.result = false ∧
    listKeyMatches (deriveListKey cleanList.name [26, 43, 60]) = true ∧
    (CreateNotificationList (alwaysStatus 201) [26, 43, 60] cleanList).1.trace.head? =
      Option.some
        { method := Method.post
          path := "/v1/templates"
          payload := Payload.list { cleanList with key := deriveListKey cleanList.name [26, 43, 60] } } :=
  ⟨by decide, by decide,
    ((c7_list_key_derivation (alwaysStatus 201) [26, 43, 60] demoList).1 (by decide)).1,
    ((c7_list_key_derivation (alwaysStatus 201) [26, 43, 60] demoList).1 (by decide)).2,
    by decide,
    (c7_list_key_derivation (alwaysStatus 201) [26, 43, 60] cleanList).2 (by decide)⟩

/-! ## Claim C8: delete status asymmetry -/

/-- C8: deleting a monitor succeeds exactly when the response status is
below 300 (200 and 202 both succeed), and deleting a notification list
succeeds exactly when the status is 204 (so a 200 fails). -/
theorem c8_delete_status_asymmetry (t : Transport) (id : String) (l : NotificationList) :
    (exceptOk (DeleteMonitor t id).result = true ↔
      (t { method := Method.delete, path := "/monitors/" ++ id, payload := Payload.empty }).status < 300) ∧
    (exceptOk (DeleteNotificationList t l).result = true ↔
      (t { method := Method.delete, path := "/v1/templates/" ++ l.key, payload := Payload.list l }).status = 204) := by
  constructor
  · unfold DeleteMonitor
    dsimp only
    split
    · next h => simp [exceptOk]; omega
    · next h => simp [exceptOk]; omega
  · unfold DeleteNotificationList
    dsimp only
    split
    · next h => simp [exceptOk, h]
    · next h => simpa [exceptOk] using not_not.mp h

end Cronitor
